import Mathlib

/-!
Verification of the VOXELINK voice-interaction pipeline
(frontend component in src/frontend/src/router/index.js, AssistantView section).

The JavaScript source is shallowly embedded:
  * floating-point audio samples are modelled as rationals;
  * the VAD segmenter, the two-channel orchestrator and the playback queue
    are modelled as pure step functions over explicit state records,
    driven by the same events the browser delivers to the source's handlers;
  * JavaScript exceptions are modelled with Except, try/catch as a match on it.

All definitions are executable so theorems on concrete inputs reduce.
-/

namespace Voxelink

/-! ## Framer: sample conversion and loudness

Source (processAudio):
  const rms = Math.sqrt(inputData.reduce((sum, val) => sum + val * val, 0) / inputData.length);
  const isSpeech = rms > AUDIO_CONFIG.AUDIO_RMS_THRESHOLD;
  const audioData = new Int16Array(inputData.map(n => Math.max(-32768, Math.min(32767, n * 32768))));

Int16Array conversion of an in-range value truncates toward zero, which
ratTrunc models.  The comparison Math.sqrt(x) > 0.05 is modelled as
x > 0.05 ^ 2 (both sides are nonnegative, sqrt is strictly monotone, so the
two are equivalent); this keeps the development inside the rationals.
-/

/-- Truncation toward zero on the rationals, as JavaScript's Int16Array
element conversion performs on an already clamped value. -/
def ratTrunc (q : ℚ) : ℤ :=
  if q < 0 then -⌊-q⌋ else ⌊q⌋

/-- Conversion of one floating-point sample to a signed 16-bit integer:
Math.max(-32768, Math.min(32767, n * 32768)), then Int16Array storage. -/
def sampleToInt16 (n : ℚ) : ℤ :=
  ratTrunc (max (-32768) (min 32767 (n * 32768)))

/-- Conversion of a whole frame (inputData.map of the sample conversion). -/
def frameToInt16 (f : List ℚ) : List ℤ :=
  f.map sampleToInt16

/-- Mean square of a frame: inputData.reduce((sum, val) => sum + val * val, 0)
divided by inputData.length.  The source compares the square root of this
with the threshold; we compare this with the squared threshold. -/
def meanSq (f : List ℚ) : ℚ :=
  (f.map (fun v => v * v)).sum / (f.length : ℚ)

/-- AUDIO_RMS_THRESHOLD = 0.05. -/
def AUDIO_RMS_THRESHOLD : ℚ := 1 / 20

/-- SPEECH_PADDING_FRAMES = 2. -/
def SPEECH_PADDING_FRAMES : ℕ := 2

/-- MAX_SILENCE_FRAMES = 8. -/
def MAX_SILENCE_FRAMES : ℕ := 8

/-- Speech classification of a frame: rms > AUDIO_RMS_THRESHOLD in the
source, i.e. meanSq > AUDIO_RMS_THRESHOLD ^ 2 (strict comparison). -/
def isSpeech (f : List ℚ) : Bool :=
  decide (AUDIO_RMS_THRESHOLD ^ 2 < meanSq f)

/-! ## Segmenter (voice-activity detection)

Source (processAudio), with the mutable refs isClientSpeaking,
speechFrames, silenceFrames made explicit.  The emission — in the source,
sendAudioToServer(concatenateAudioChunks(speechFrames)) — is returned as the
list of accumulated frames; the orchestrator model below concatenates and
routes it exactly as the source does.
-/

/-- Mutable segmenter state of processAudio: isClientSpeaking,
speechFrames (already converted to Int16 data, as pushed by the source) and
silenceFrames. -/
structure SegState where
  isClientSpeaking : Bool
  speechFrames : List (List ℤ)
  silenceFrames : ℕ
deriving DecidableEq, Repr

/-- Initial segmenter state: not speaking, no frames, zero silence. -/
def segInit : SegState := ⟨false, [], 0⟩

/-- concatenateAudioChunks: flattens the accumulated frames into one
buffer. -/
def concatenateAudioChunks (chunks : List (List ℤ)) : List ℤ :=
  chunks.flatten

/-- One step of processAudio on a raw frame, restricted to the segmentation
logic (the isRecording guard and the network send live in the orchestrator
model).  Returns the new state and, when the silence run reaches
MAX_SILENCE_FRAMES with a non-empty accumulation, the emitted frame list. -/
def segStep (s : SegState) (frame : List ℚ) : SegState × Option (List (List ℤ)) :=
  let audioData := frameToInt16 frame
  if isSpeech frame then
    ({ isClientSpeaking := true,
       speechFrames := s.speechFrames ++ [audioData],
       silenceFrames := 0 }, none)
  else if s.isClientSpeaking then
    let silence := s.silenceFrames + 1
    let frames :=
      if silence ≤ SPEECH_PADDING_FRAMES then s.speechFrames ++ [audioData]
      else s.speechFrames
    if MAX_SILENCE_FRAMES ≤ silence then
      (⟨false, [], silence⟩, if frames = [] then none else some frames)
    else
      ({ s with speechFrames := frames, silenceFrames := silence }, none)
  else
    (s, none)

/-- Runs the segmenter over a frame sequence, collecting every emitted
segment in order. -/
def segRun (s : SegState) : List (List ℚ) → SegState × List (List (List ℤ))
  | [] => (s, [])
  | f :: fs =>
    let r := segStep s f
    let rest := segRun r.1 fs
    (rest.1, r.2.toList ++ rest.2)

/-! ### Segmenter invariants -/

/-- An emitted segment is well formed when it is non-empty and its first
frame is the conversion of a frame that was classified as speech. -/
def loudHeaded (seg : List (List ℤ)) : Prop :=
  seg ≠ [] ∧ ∃ f, isSpeech f = true ∧ seg.head? = some (frameToInt16 f)

/-- Reachability invariant of the segmenter state: while Idle the frame
accumulation is empty; while Capturing it is non-empty and headed by the
conversion of a speech-classified frame. -/
def SegInv (s : SegState) : Prop :=
  (s.isClientSpeaking = false → s.speechFrames = []) ∧
  (s.isClientSpeaking = true → s.speechFrames ≠ [] ∧
    ∃ f, isSpeech f = true ∧ s.speechFrames.head? = some (frameToInt16 f))

theorem head?_append_left {α : Type} (l l' : List α) (h : l ≠ []) :
    (l ++ l').head? = l.head? := by
  cases l with
  | nil => exact absurd rfl h
  | cons a t => rfl

theorem segInit_inv : SegInv segInit := by
  constructor
  · intro _; rfl
  · intro h; simp [segInit] at h

theorem segStep_inv (s : SegState) (f : List ℚ) (h : SegInv s) :
    SegInv (segStep s f).1 ∧ ∀ seg, (segStep s f).2 = some seg → loudHeaded seg := by
  by_cases hs : isSpeech f
  · refine ⟨⟨by simp [segStep, hs], ?_⟩, by simp [segStep, hs]⟩
    intro _
    simp only [segStep, hs, if_true]
    by_cases hc : s.isClientSpeaking
    · obtain ⟨hne, g, hg, hhead⟩ := h.2 hc
      exact ⟨by simp, g, hg, by rw [head?_append_left _ _ hne]; exact hhead⟩
    · have he : s.speechFrames = [] := h.1 (by simpa using hc)
      exact ⟨by simp, f, hs, by simp [he]⟩
  · by_cases hc : s.isClientSpeaking
    · obtain ⟨hne, g, hg, hhead⟩ := h.2 hc
      have hgoodA : s.speechFrames ++ [frameToInt16 f] ≠ [] ∧
          (s.speechFrames ++ [frameToInt16 f]).head? = some (frameToInt16 g) :=
        ⟨by simp, by rw [head?_append_left _ _ hne]; exact hhead⟩
      by_cases hm : MAX_SILENCE_FRAMES ≤ s.silenceFrames + 1
      · by_cases hp : s.silenceFrames + 1 ≤ SPEECH_PADDING_FRAMES
        · simp only [segStep, hs, Bool.false_eq_true, if_false, hc, if_true, hp,
            hm, hgoodA.1, if_neg, not_false_iff]
          refine ⟨⟨fun _ => rfl, fun hfalse => by simp at hfalse⟩, ?_⟩
          intro seg hseg
          simp only [Option.some.injEq] at hseg
          subst hseg
          exact ⟨hgoodA.1, g, hg, hgoodA.2⟩
        · simp only [segStep, hs, Bool.false_eq_true, if_false, hc, if_true, hp,
            hm, hne, if_neg, not_false_iff]
          refine ⟨⟨fun _ => rfl, fun hfalse => by simp at hfalse⟩, ?_⟩
          intro seg hseg
          simp only [Option.some.injEq] at hseg
          subst hseg
          exact ⟨hne, g, hg, hhead⟩
      · by_cases hp : s.silenceFrames + 1 ≤ SPEECH_PADDING_FRAMES
        · simp only [segStep, hs, Bool.false_eq_true, if_false, hc, if_true, hp,
            hm, if_neg, not_false_iff]
          refine ⟨⟨fun hfalse => by simp [hc] at hfalse, fun _ => ?_⟩, by simp⟩
          exact ⟨hgoodA.1, g, hg, hgoodA.2⟩
        · simp only [segStep, hs, Bool.false_eq_true, if_false, hc, if_true, hp,
            hm, if_neg, not_false_iff]
          refine ⟨⟨fun hfalse => by simp [hc] at hfalse, fun _ => ?_⟩, by simp⟩
          exact ⟨hne, g, hg, hhead⟩
    · refine ⟨?_, by simp [segStep, hs, hc]⟩
      have : (segStep s f).1 = s := by simp [segStep, hs, hc]
      rw [this]
      exact h

theorem segRun_good (frames : List (List ℚ)) :
    ∀ s : SegState, SegInv s →
      SegInv (segRun s frames).1 ∧ ∀ seg ∈ (segRun s frames).2, loudHeaded seg := by
  induction frames with
  | nil =>
    intro s h
    exact ⟨h, by simp [segRun]⟩
  | cons f fs ih =>
    intro s h
    have hstep := segStep_inv s f h
    have hrest := ih (segStep s f).1 hstep.1
    refine ⟨hrest.1, ?_⟩
    intro seg hseg
    simp only [segRun, List.mem_append] at hseg
    rcases hseg with hseg | hseg
    · rcases hmem : (segStep s f).2 with _ | e
      · simp [hmem] at hseg
      · simp only [hmem, Option.toList_some, List.mem_singleton] at hseg
        subst hseg
        exact hstep.2 _ hmem
    · exact hrest.2 seg hseg

/-! ### Claims about the Framer and Segmenter -/

/-- Frame sequence of claim C4: one loud frame (rms 0.5) followed by eight
distinct quiet frames (rms k/2000 for k = 1..8, all at or below the 0.05
threshold). -/
def c4Frames : List (List ℚ) :=
  [[1/2]] ++ (List.range 8).map (fun k => [((k : ℚ) + 1) / 2000])

/-- Claim C4: with the default configuration (MAX_SILENCE_FRAMES = 8,
SPEECH_PADDING_FRAMES = 2, threshold 0.05), a loud frame followed by eight
consecutive quiet frames, starting from Idle, emits exactly one segment
consisting of the loud frame plus the first two quiet frames (quiet frames
3 through 8 excluded) and returns the segmenter to Idle. -/
theorem loud_then_eight_quiet_emits_one_padded_segment :
    segRun segInit c4Frames =
      (⟨false, [], 8⟩,
       [[frameToInt16 [1/2], frameToInt16 [1/2000], frameToInt16 [2/2000]]]) := by
  norm_num [c4Frames, List.range_succ, segRun, segStep, isSpeech, meanSq,
    AUDIO_RMS_THRESHOLD, SPEECH_PADDING_FRAMES, MAX_SILENCE_FRAMES,
    frameToInt16, sampleToInt16, ratTrunc, segInit, min_def, max_def]
  simp

/-- Claim C5, counterexample: a frame whose RMS loudness equals the
threshold exactly (single sample 1/20, so meanSq = threshold squared and
rms = threshold) does not open a segment from Idle — the source's guard is
the strict comparison rms > threshold, so the claimed transition at
loudness equal to the threshold does not happen. -/
theorem rms_equal_threshold_does_not_open_segment :
    meanSq [1/20] = AUDIO_RMS_THRESHOLD ^ 2 ∧
    isSpeech [1/20] = false ∧
    segStep segInit [1/20] = (segInit, none) := by
  refine ⟨by norm_num [meanSq, AUDIO_RMS_THRESHOLD], ?_, ?_⟩
  · norm_num [isSpeech, meanSq, AUDIO_RMS_THRESHOLD]
  · norm_num [segStep, isSpeech, meanSq, AUDIO_RMS_THRESHOLD, segInit]

/-- Claim C5, amended: from the Idle state the transition to Capturing
occurs exactly when the frame's RMS loudness is strictly greater than the
threshold (meanSq compared with the squared threshold), and the triggering
frame becomes the first frame of the new segment; a frame with RMS exactly
equal to the threshold does not open a segment. -/
theorem idle_to_capturing_iff_strictly_above_threshold (f : List ℚ) (s : SegState)
    (hspk : s.isClientSpeaking = false) (hfr : s.speechFrames = []) :
    ((segStep s f).1.isClientSpeaking = true ↔ AUDIO_RMS_THRESHOLD ^ 2 < meanSq f) ∧
    (AUDIO_RMS_THRESHOLD ^ 2 < meanSq f →
      (segStep s f).1.speechFrames = [frameToInt16 f]) := by
  by_cases hs : isSpeech f
  · have hlt : AUDIO_RMS_THRESHOLD ^ 2 < meanSq f := by
      simpa [isSpeech] using hs
    refine ⟨⟨fun _ => hlt, fun _ => by simp [segStep, hs]⟩, fun _ => ?_⟩
    simp [segStep, hs, hfr]
  · have hnlt : ¬ AUDIO_RMS_THRESHOLD ^ 2 < meanSq f := by
      simpa [isSpeech] using hs
    have hnot : ¬ (segStep s f).1.isClientSpeaking = true := by
      intro habs
      simp [segStep, hs, hspk] at habs
    exact ⟨iff_of_false hnot hnlt, fun habs => absurd habs hnlt⟩

/-- Witness for the amended claim C5 at a concrete Idle state and a
concrete loud frame. -/
theorem idle_to_capturing_iff_strictly_above_threshold_witness :
    ((segStep segInit [1/2]).1.isClientSpeaking = true ↔
      AUDIO_RMS_THRESHOLD ^ 2 < meanSq [1/2]) ∧
    (AUDIO_RMS_THRESHOLD ^ 2 < meanSq [1/2] →
      (segStep segInit [1/2]).1.speechFrames = [frameToInt16 [1/2]]) :=
  idle_to_capturing_iff_strictly_above_threshold [1/2] segInit rfl rfl

theorem ratTrunc_intCast (k : ℤ) : ratTrunc (k : ℚ) = k := by
  unfold ratTrunc
  split
  · rw [← Int.cast_neg, Int.floor_intCast, neg_neg]
  · exact Int.floor_intCast k

/-- Claim C6: the sample conversion saturates out-of-range inputs (1.5 maps
to 32767 and -1.5 maps to -32768) and maps every in-range value — one whose
scaled integer k lies within the signed 16-bit range — to exactly that
integer. -/
theorem sample_conversion_saturates_and_is_exact (k : ℤ)
    (hk1 : -32768 ≤ k) (hk2 : k ≤ 32767) :
    sampleToInt16 (3/2) = 32767 ∧
    sampleToInt16 (-3/2) = -32768 ∧
    sampleToInt16 ((k : ℚ) / 32768) = k := by
  refine ⟨?_, ?_, ?_⟩
  · norm_num [sampleToInt16, ratTrunc, min_def, max_def]
  · norm_num [sampleToInt16, ratTrunc, min_def, max_def]
  have h32 : (32768 : ℚ) ≠ 0 := by norm_num
  have hmul : (k : ℚ) / 32768 * 32768 = (k : ℚ) := div_mul_cancel₀ _ h32
  have hle : (k : ℚ) ≤ 32767 := by exact_mod_cast hk2
  have hge : (-32768 : ℚ) ≤ (k : ℚ) := by exact_mod_cast hk1
  unfold sampleToInt16
  rw [hmul, min_eq_right hle, max_eq_right hge]
  exact ratTrunc_intCast k

/-- Witness for claim C6 at the concrete in-range scaled integer 1000. -/
theorem sample_conversion_saturates_and_is_exact_witness :
    -32768 ≤ (1000 : ℤ) ∧ (1000 : ℤ) ≤ 32767 ∧
    (sampleToInt16 (3/2) = 32767 ∧
     sampleToInt16 (-3/2) = -32768 ∧
     sampleToInt16 (((1000 : ℤ) : ℚ) / 32768) = 1000) :=
  ⟨by norm_num, by norm_num,
   sample_conversion_saturates_and_is_exact 1000 (by norm_num) (by norm_num)⟩

/-- Claim C10: for every frame sequence processed from the initial state,
the segmenter's accumulation is non-empty whenever it is Capturing, and
every emitted segment is non-empty with a speech-classified first frame —
so the non-emptiness guard before emission is never the reason a terminal
condition produces no segment. -/
theorem emitted_segments_nonempty_and_loud_headed (frames : List (List ℚ)) :
    ((segRun segInit frames).1.isClientSpeaking = true →
      (segRun segInit frames).1.speechFrames ≠ []) ∧
    ∀ seg ∈ (segRun segInit frames).2,
      seg ≠ [] ∧ ∃ f, isSpeech f = true ∧ seg.head? = some (frameToInt16 f) := by
  have h := segRun_good frames segInit segInit_inv
  exact ⟨fun hc => (h.1.2 hc).1, fun seg hseg => h.2 seg hseg⟩

/-- Frame sequence for the claim C10 witness: the C4 sequence (emits one
segment) followed by one more loud frame (leaves the segmenter Capturing). -/
def c10Frames : List (List ℚ) := c4Frames ++ [[1/2]]

theorem c10Frames_run :
    segRun segInit c10Frames =
      (⟨true, [frameToInt16 [1/2]], 0⟩,
       [[frameToInt16 [1/2], frameToInt16 [1/2000], frameToInt16 [2/2000]]]) := by
  norm_num [c10Frames, c4Frames, List.range_succ, segRun, segStep, isSpeech, meanSq,
    AUDIO_RMS_THRESHOLD, SPEECH_PADDING_FRAMES, MAX_SILENCE_FRAMES,
    frameToInt16, sampleToInt16, ratTrunc, segInit, min_def, max_def]
  simp

/-- Witness for claim C10: on a concrete frame sequence the final state is
Capturing with a non-empty accumulation, and the one emitted segment is
non-empty and headed by a speech-classified frame. -/
theorem emitted_segments_nonempty_and_loud_headed_witness :
    (segRun segInit c10Frames).1.speechFrames ≠ [] ∧
    ([frameToInt16 [1/2], frameToInt16 [1/2000], frameToInt16 [2/2000]] ≠
        ([] : List (List ℤ)) ∧
      ∃ f, isSpeech f = true ∧
        ([frameToInt16 [1/2], frameToInt16 [1/2000],
          frameToInt16 [2/2000]] : List (List ℤ)).head? = some (frameToInt16 f)) := by
  have h := emitted_segments_nonempty_and_loud_headed c10Frames
  exact ⟨h.1 (by simp [c10Frames_run]), h.2 _ (by simp [c10Frames_run])⟩

/-! ## Session channels and orchestrator

Source: connectSttSocket / connectTtsSocket install onopen / onclose /
onerror handlers that set the booleans isSttConnected / isTtsConnected;
updateSttServerConfig and sendAudioToServer guard on
sttSocket.readyState === WebSocket.OPEN; startVoiceChat guards on
isConnected (the conjunction of the two booleans) and on isRecording;
the STT onclose handler stops recording, the TTS handlers do not.

The transport readyState of each socket is modelled with ChannelState; the
booleans are modelled directly.  Events are exactly the callbacks the
browser delivers plus the two user actions; userConnect carries the UI
guard connectBtnDisabled (the connect button is disabled as soon as either
boolean is set).  startRecord models a startVoiceChat call in which
getUserMedia succeeds (media faults only prevent recording from starting).
Status-text and log side effects are not tracked at this level.
-/

/-- Transport state of one WebSocket. -/
inductive ChannelState where
  | Disconnected
  | Connecting
  | Open
  | Closed
  | Errored
deriving DecidableEq, Repr

/-- Derived combined readiness, mirroring updateCombinedConnectionStatus:
both booleans set gives the connected status, neither gives disconnected,
any other combination gives the partial (processing) status. -/
inductive Readiness where
  | Ready
  | Degraded
  | Offline
deriving DecidableEq, Repr

/-- combinedReadiness of the two connection booleans, following the branch
structure of updateCombinedConnectionStatus. -/
def combinedReadiness (stt tts : Bool) : Readiness :=
  if stt && tts then Readiness.Ready
  else if !stt && !tts then Readiness.Offline
  else Readiness.Degraded

/-- Message sent on the recognition channel: the session configuration
(action config with the user token) or an audio payload (action audio with
the concatenated PCM data). -/
inductive SttMsg where
  | config
  | audio (data : List ℤ)
deriving DecidableEq, Repr

/-- Orchestrator-level state: both transports, the two connection booleans,
the recording flag, the segmenter state and the outbound message trace of
the recognition channel. -/
structure SysState where
  sttState : ChannelState
  ttsState : ChannelState
  isSttConnected : Bool
  isTtsConnected : Bool
  isRecording : Bool
  seg : SegState
  sttSent : List SttMsg
deriving DecidableEq, Repr

/-- Initial orchestrator state. -/
def sysInit : SysState :=
  { sttState := ChannelState.Disconnected
    ttsState := ChannelState.Disconnected
    isSttConnected := false
    isTtsConnected := false
    isRecording := false
    seg := segInit
    sttSent := [] }

/-- updateSttServerConfig: sends the config message only when the
recognition socket's readyState is OPEN, otherwise only logs. -/
def updateSttServerConfigS (s : SysState) : SysState :=
  if s.sttState = ChannelState.Open then
    { s with sttSent := s.sttSent ++ [SttMsg.config] }
  else s

/-- sendAudioToServer: sends the audio message only when the recognition
socket's readyState is OPEN, otherwise returns without sending (and without
logging). -/
def sendAudioToServerS (s : SysState) (buffer : List ℤ) : SysState :=
  if s.sttState = ChannelState.Open then
    { s with sttSent := s.sttSent ++ [SttMsg.audio buffer] }
  else s

/-- stopVoiceChat: no-op unless recording; otherwise clears the recording
flag, the speaking flag and the frame accumulation (silenceFrames is left
as is, matching the source). -/
def stopVoiceChatS (s : SysState) : SysState :=
  if s.isRecording then
    { s with isRecording := false,
             seg := { isClientSpeaking := false, speechFrames := [],
                      silenceFrames := s.seg.silenceFrames } }
  else s

/-- startVoiceChat: returns early unless both channels are connected or if
already recording; otherwise calls updateSttServerConfig and (on
getUserMedia success) sets the recording flag. -/
def startVoiceChatS (s : SysState) : SysState :=
  if s.isSttConnected && s.isTtsConnected then
    if s.isRecording then s
    else
      let s1 := updateSttServerConfigS s
      { s1 with isRecording := true }
  else s

/-- processAudio: returns early unless recording; otherwise advances the
segmenter and, on emission, sends the concatenated buffer through
sendAudioToServer. -/
def processAudioS (s : SysState) (frame : List ℚ) : SysState :=
  if s.isRecording then
    let r := segStep s.seg frame
    let s1 := { s with seg := r.1 }
    match r.2 with
    | none => s1
    | some frames => sendAudioToServerS s1 (concatenateAudioChunks frames)
  else s

/-- Events driving the orchestrator: the socket callbacks, the two user
buttons and one processed audio block. -/
inductive Ev where
  | userConnect
  | sttOpen
  | sttClose
  | sttError
  | ttsOpen
  | ttsClose
  | ttsError
  | userDisconnect
  | startRecord
  | stopRecord
  | audioFrame (f : List ℚ)
deriving DecidableEq, Repr

/-- One orchestrator transition per delivered event, following the
corresponding source handler. -/
def stepSys (s : SysState) (e : Ev) : SysState :=
  match e with
  | Ev.userConnect =>
    if s.isSttConnected || s.isTtsConnected then s
    else { s with sttState := ChannelState.Connecting,
                  ttsState := ChannelState.Connecting }
  | Ev.sttOpen =>
    updateSttServerConfigS
      { s with sttState := ChannelState.Open, isSttConnected := true }
  | Ev.sttClose =>
    stopVoiceChatS
      { s with sttState := ChannelState.Closed, isSttConnected := false }
  | Ev.sttError =>
    { s with sttState := ChannelState.Errored, isSttConnected := false }
  | Ev.ttsOpen =>
    { s with ttsState := ChannelState.Open, isTtsConnected := true }
  | Ev.ttsClose =>
    { s with ttsState := ChannelState.Closed, isTtsConnected := false }
  | Ev.ttsError =>
    { s with ttsState := ChannelState.Errored, isTtsConnected := false }
  | Ev.userDisconnect =>
    stopVoiceChatS
      { s with sttState := ChannelState.Closed, ttsState := ChannelState.Closed,
               isSttConnected := false, isTtsConnected := false }
  | Ev.startRecord => startVoiceChatS s
  | Ev.stopRecord => stopVoiceChatS s
  | Ev.audioFrame f => processAudioS s f

/-- Runs the orchestrator from the initial state over an event list. -/
def runSys (es : List Ev) : SysState :=
  es.foldl stepSys sysInit

/-! ### Field-preservation lemmas for the orchestrator helpers -/

@[simp] theorem updateSttServerConfigS_sttState (s : SysState) :
    (updateSttServerConfigS s).sttState = s.sttState := by
  unfold updateSttServerConfigS; split <;> rfl

@[simp] theorem updateSttServerConfigS_ttsState (s : SysState) :
    (updateSttServerConfigS s).ttsState = s.ttsState := by
  unfold updateSttServerConfigS; split <;> rfl

@[simp] theorem updateSttServerConfigS_sttConn (s : SysState) :
    (updateSttServerConfigS s).isSttConnected = s.isSttConnected := by
  unfold updateSttServerConfigS; split <;> rfl

@[simp] theorem updateSttServerConfigS_ttsConn (s : SysState) :
    (updateSttServerConfigS s).isTtsConnected = s.isTtsConnected := by
  unfold updateSttServerConfigS; split <;> rfl

@[simp] theorem sendAudioToServerS_sttState (s : SysState) (b : List ℤ) :
    (sendAudioToServerS s b).sttState = s.sttState := by
  unfold sendAudioToServerS; split <;> rfl

@[simp] theorem sendAudioToServerS_ttsState (s : SysState) (b : List ℤ) :
    (sendAudioToServerS s b).ttsState = s.ttsState := by
  unfold sendAudioToServerS; split <;> rfl

@[simp] theorem sendAudioToServerS_sttConn (s : SysState) (b : List ℤ) :
    (sendAudioToServerS s b).isSttConnected = s.isSttConnected := by
  unfold sendAudioToServerS; split <;> rfl

@[simp] theorem sendAudioToServerS_ttsConn (s : SysState) (b : List ℤ) :
    (sendAudioToServerS s b).isTtsConnected = s.isTtsConnected := by
  unfold sendAudioToServerS; split <;> rfl

@[simp] theorem stopVoiceChatS_sttState (s : SysState) :
    (stopVoiceChatS s).sttState = s.sttState := by
  unfold stopVoiceChatS; split <;> rfl

@[simp] theorem stopVoiceChatS_ttsState (s : SysState) :
    (stopVoiceChatS s).ttsState = s.ttsState := by
  unfold stopVoiceChatS; split <;> rfl

@[simp] theorem stopVoiceChatS_sttConn (s : SysState) :
    (stopVoiceChatS s).isSttConnected = s.isSttConnected := by
  unfold stopVoiceChatS; split <;> rfl

@[simp] theorem stopVoiceChatS_ttsConn (s : SysState) :
    (stopVoiceChatS s).isTtsConnected = s.isTtsConnected := by
  unfold stopVoiceChatS; split <;> rfl

@[simp] theorem stopVoiceChatS_sttSent (s : SysState) :
    (stopVoiceChatS s).sttSent = s.sttSent := by
  unfold stopVoiceChatS; split <;> rfl

@[simp] theorem startVoiceChatS_sttState (s : SysState) :
    (startVoiceChatS s).sttState = s.sttState := by
  unfold startVoiceChatS
  split
  · split
    · rfl
    · simp
  · rfl

@[simp] theorem startVoiceChatS_ttsState (s : SysState) :
    (startVoiceChatS s).ttsState = s.ttsState := by
  unfold startVoiceChatS
  split
  · split
    · rfl
    · simp
  · rfl

@[simp] theorem startVoiceChatS_sttConn (s : SysState) :
    (startVoiceChatS s).isSttConnected = s.isSttConnected := by
  unfold startVoiceChatS
  split
  · split
    · rfl
    · simp
  · rfl

@[simp] theorem startVoiceChatS_ttsConn (s : SysState) :
    (startVoiceChatS s).isTtsConnected = s.isTtsConnected := by
  unfold startVoiceChatS
  split
  · split
    · rfl
    · simp
  · rfl

@[simp] theorem processAudioS_sttState (s : SysState) (f : List ℚ) :
    (processAudioS s f).sttState = s.sttState := by
  unfold processAudioS
  split
  · rcases hr : (segStep s.seg f).2 with _ | frames <;> simp [hr]
  · rfl

@[simp] theorem processAudioS_ttsState (s : SysState) (f : List ℚ) :
    (processAudioS s f).ttsState = s.ttsState := by
  unfold processAudioS
  split
  · rcases hr : (segStep s.seg f).2 with _ | frames <;> simp [hr]
  · rfl

@[simp] theorem processAudioS_sttConn (s : SysState) (f : List ℚ) :
    (processAudioS s f).isSttConnected = s.isSttConnected := by
  unfold processAudioS
  split
  · rcases hr : (segStep s.seg f).2 with _ | frames <;> simp [hr]
  · rfl

@[simp] theorem processAudioS_ttsConn (s : SysState) (f : List ℚ) :
    (processAudioS s f).isTtsConnected = s.isTtsConnected := by
  unfold processAudioS
  split
  · rcases hr : (segStep s.seg f).2 with _ | frames <;> simp [hr]
  · rfl

/-! ### Channel-state / boolean correspondence (claim C7) -/

/-- Reachability invariant: each connection boolean is set exactly when the
corresponding transport is Open. -/
def ChanInv (s : SysState) : Prop :=
  (s.isSttConnected = true ↔ s.sttState = ChannelState.Open) ∧
  (s.isTtsConnected = true ↔ s.ttsState = ChannelState.Open)

theorem chanInv_sysInit : ChanInv sysInit := by
  constructor <;> simp [sysInit]

theorem chanInv_stepSys (s : SysState) (e : Ev) (h : ChanInv s) :
    ChanInv (stepSys s e) := by
  obtain ⟨h1, h2⟩ := h
  cases e with
  | userConnect =>
    by_cases hg : s.isSttConnected || s.isTtsConnected
    · simpa [stepSys, hg] using ⟨h1, h2⟩
    · simp only [Bool.or_eq_true, not_or, Bool.not_eq_true] at hg
      constructor <;> simp [stepSys, hg.1, hg.2]
  | sttOpen => constructor <;> simp [stepSys, h2]
  | sttClose => constructor <;> simp [stepSys, h2]
  | sttError => constructor <;> simp [stepSys, h2]
  | ttsOpen => constructor <;> simp [stepSys, h1]
  | ttsClose => constructor <;> simp [stepSys, h1]
  | ttsError => constructor <;> simp [stepSys, h1]
  | userDisconnect => constructor <;> simp [stepSys]
  | startRecord => constructor <;> simp [stepSys, h1, h2]
  | stopRecord => constructor <;> simp [stepSys, h1, h2]
  | audioFrame f => constructor <;> simp [stepSys, h1, h2]

theorem chanInv_foldl (es : List Ev) :
    ∀ s : SysState, ChanInv s → ChanInv (es.foldl stepSys s) := by
  induction es with
  | nil => intro s h; exact h
  | cons e es ih => intro s h; exact ih _ (chanInv_stepSys s e h)

theorem chanInv_runSys (es : List Ev) : ChanInv (runSys es) :=
  chanInv_foldl es sysInit chanInv_sysInit

theorem combinedReadiness_ready_iff (a b : Bool) :
    combinedReadiness a b = Readiness.Ready ↔ (a = true ∧ b = true) := by
  cases a <;> cases b <;> simp [combinedReadiness]

/-- Claim C7: for every reachable pair of channel states, the derived
combined readiness is Ready exactly when both the recognition transport and
the synthesis transport are Open. -/
theorem readiness_ready_iff_both_channels_open (es : List Ev) :
    combinedReadiness (runSys es).isSttConnected (runSys es).isTtsConnected =
      Readiness.Ready ↔
    ((runSys es).sttState = ChannelState.Open ∧
     (runSys es).ttsState = ChannelState.Open) := by
  have h := chanInv_runSys es
  rw [combinedReadiness_ready_iff]
  exact and_congr h.1 h.2

/-! ### Claim C1: routing of finished segments -/

/-- Event trace reaching a degraded state with an emitted segment: connect,
both channels open, recording starts, the synthesis channel closes (which
does not stop recording), then a loud frame and eight quiet frames finish a
segment. -/
def c1Trace : List Ev :=
  [Ev.userConnect, Ev.sttOpen, Ev.ttsOpen, Ev.startRecord, Ev.ttsClose,
   Ev.audioFrame [1/2]] ++
  (List.range 8).map (fun k => Ev.audioFrame [((k : ℚ) + 1) / 2000])

/-- Claim C1, counterexample: after c1Trace the combined readiness is
Degraded (the synthesis channel is closed), yet the finished segment was
forwarded to the recognition channel — the send path guards only on the
recognition socket being OPEN, so a segment finished while readiness is not
Ready is sent, not dropped. -/
theorem segment_forwarded_while_not_ready :
    combinedReadiness (runSys c1Trace).isSttConnected
        (runSys c1Trace).isTtsConnected = Readiness.Degraded ∧
    (runSys c1Trace).sttState = ChannelState.Open ∧
    (runSys c1Trace).ttsState = ChannelState.Closed ∧
    (runSys c1Trace).sttSent =
      [SttMsg.config, SttMsg.config, SttMsg.audio [16384, 16, 32]] := by
  norm_num [c1Trace, List.range_succ, runSys, stepSys, sysInit, processAudioS,
    startVoiceChatS, stopVoiceChatS, updateSttServerConfigS, sendAudioToServerS,
    segStep, isSpeech, meanSq, AUDIO_RMS_THRESHOLD, SPEECH_PADDING_FRAMES,
    MAX_SILENCE_FRAMES, frameToInt16, sampleToInt16, ratTrunc, segInit,
    concatenateAudioChunks, combinedReadiness, min_def, max_def]
  simp

/-- Claim C1, amended: a finished segment is forwarded to the recognition
channel exactly when the recognition socket is Open at that moment,
independently of the synthesis channel (so independently of the combined
readiness); when the recognition socket is not Open the segment is dropped
without reaching the send path. -/
theorem segment_forwarded_iff_recognition_open (s : SysState) (f : List ℚ)
    (hrec : s.isRecording = true) (seg' : SegState) (frames : List (List ℤ))
    (hemit : segStep s.seg f = (seg', some frames)) :
    ((processAudioS s f).sttSent =
        s.sttSent ++ [SttMsg.audio (concatenateAudioChunks frames)] ↔
      s.sttState = ChannelState.Open) ∧
    (¬ s.sttState = ChannelState.Open → (processAudioS s f).sttSent = s.sttSent) := by
  by_cases ho : s.sttState = ChannelState.Open
  · simp [processAudioS, hrec, hemit, sendAudioToServerS, ho]
  · simp [processAudioS, hrec, hemit, sendAudioToServerS, ho]

/-- Concrete orchestrator state for the claim C1 witness: recording with an
open recognition socket and a segment about to terminate (silence run 7). -/
def c1WitnessState : SysState :=
  { sttState := ChannelState.Open
    ttsState := ChannelState.Open
    isSttConnected := true
    isTtsConnected := true
    isRecording := true
    seg := ⟨true, [[16384]], 7⟩
    sttSent := [] }

theorem c1Witness_emit :
    segStep c1WitnessState.seg [1/2000] = (⟨false, [], 8⟩, some [[16384]]) := by
  norm_num [c1WitnessState, segStep, isSpeech, meanSq, AUDIO_RMS_THRESHOLD,
    SPEECH_PADDING_FRAMES, MAX_SILENCE_FRAMES]

/-- Witness for the amended claim C1 at a concrete recording state and a
terminating quiet frame. -/
theorem segment_forwarded_iff_recognition_open_witness :
    ((processAudioS c1WitnessState [1/2000]).sttSent =
        c1WitnessState.sttSent ++ [SttMsg.audio (concatenateAudioChunks [[16384]])] ↔
      c1WitnessState.sttState = ChannelState.Open) ∧
    (¬ c1WitnessState.sttState = ChannelState.Open →
      (processAudioS c1WitnessState [1/2000]).sttSent = c1WitnessState.sttSent) :=
  segment_forwarded_iff_recognition_open c1WitnessState [1/2000] rfl
    ⟨false, [], 8⟩ [[16384]] c1Witness_emit

/-! ### Claim C2: config message per connection lifetime -/

/-- Number of session-configuration messages in an outbound trace. -/
def countConfig (l : List SttMsg) : ℕ :=
  l.countP (fun m => match m with | SttMsg.config => true | _ => false)

theorem countConfig_append_config (l : List SttMsg) :
    countConfig (l ++ [SttMsg.config]) = countConfig l + 1 := by
  simp [countConfig, List.countP_append, List.countP_cons]

theorem countConfig_append_audio (l : List SttMsg) (b : List ℤ) :
    countConfig (l ++ [SttMsg.audio b]) = countConfig l := by
  simp [countConfig, List.countP_append, List.countP_cons]

/-- Event trace with a single connection lifetime (the recognition channel
opens once and never closes) and one recording start. -/
def c2Trace : List Ev :=
  [Ev.userConnect, Ev.sttOpen, Ev.ttsOpen, Ev.startRecord]

/-- Claim C2, counterexample: within one connection lifetime — the
recognition channel opens once and never closes in c2Trace — the config
message is sent twice: once from the open handler and once more from the
recording start, refuting the exactly-once claim. -/
theorem config_sent_twice_in_one_connection :
    (runSys c2Trace).sttSent = [SttMsg.config, SttMsg.config] ∧
    countConfig (runSys c2Trace).sttSent = 2 := by
  refine ⟨?_, ?_⟩ <;>
    simp [c2Trace, runSys, stepSys, sysInit, updateSttServerConfigS,
      startVoiceChatS, stopVoiceChatS, countConfig, List.countP_cons]

/-- Claim C2, amended: a config message is sent exactly on the recognition
channel's open event and additionally on every recording start that passes
the guards (both channels connected, not already recording, recognition
socket open) — hence once per connection lifetime plus once per recording
start, not exactly once. -/
theorem config_sent_on_open_and_each_recording_start (s : SysState) (e : Ev) :
    countConfig (stepSys s e).sttSent =
      countConfig s.sttSent +
        (if e = Ev.sttOpen ∨
            (e = Ev.startRecord ∧ s.isSttConnected = true ∧ s.isTtsConnected = true ∧
             s.isRecording = false ∧ s.sttState = ChannelState.Open)
         then 1 else 0) := by
  cases e with
  | userConnect =>
    by_cases hg : s.isSttConnected || s.isTtsConnected <;> simp [stepSys, hg]
  | sttOpen =>
    simp [stepSys, updateSttServerConfigS, countConfig_append_config]
  | sttClose => simp [stepSys]
  | sttError => simp [stepSys]
  | ttsOpen => simp [stepSys]
  | ttsClose => simp [stepSys]
  | ttsError => simp [stepSys]
  | userDisconnect => simp [stepSys]
  | startRecord =>
    by_cases h1 : s.isSttConnected = true
    · by_cases h2 : s.isTtsConnected = true
      · by_cases h3 : s.isRecording = true
        · simp [stepSys, startVoiceChatS, h1, h2, h3]
        · by_cases h4 : s.sttState = ChannelState.Open
          · simp [stepSys, startVoiceChatS, updateSttServerConfigS, h1, h2, h3, h4,
              countConfig_append_config]
          · simp [stepSys, startVoiceChatS, updateSttServerConfigS, h1, h2, h3, h4]
      · simp [stepSys, startVoiceChatS, h1, h2]
    · simp [stepSys, startVoiceChatS, h1]
  | stopRecord => simp [stepSys]
  | audioFrame f =>
    by_cases hr : s.isRecording = true
    · rcases hseg : (segStep s.seg f).2 with _ | frames
      · simp [stepSys, processAudioS, hr, hseg]
      · by_cases ho : s.sttState = ChannelState.Open
        · simp [stepSys, processAudioS, hr, hseg, sendAudioToServerS, ho,
            countConfig_append_audio]
        · simp [stepSys, processAudioS, hr, hseg, sendAudioToServerS, ho]
    · simp [stepSys, processAudioS, hr]

/-! ## Playback queue controller

Source: handleTtsMessage, base64ToBlob, playNextAudio, onAudioEnded,
onAudioError (AssistantView section).

Modelling notes, all matching the source:
  * a PlaybackItem records the object URL (URLs are allocated from a fresh
    counter, modelling URL.createObjectURL), the transcript text and the
    isBlob ownership mark; the blob's byte content is never inspected after
    creation, so it is not tracked;
  * URL.revokeObjectURL is tracked by appending the revoked URL to a list;
  * the avatar stop-speaking call together with the ai-audio-ended dispatch
    in onAudioEnded is counted as one drain signal; live2dControls presence
    is a constant flag;
  * addToLog is tracked as a log counter;
  * a thrown JavaScript exception is an Except.error carrying the state
    mutated so far; the try/catch of handleTtsMessage matches on it, so the
    handler itself is total (no exception propagates);
  * atob on a missing (undefined) field receives the 9-character string
    undefined, whose length is 1 mod 4, and therefore throws; atobOk models
    atob's validity check (length not 1 mod 4, alphabet membership);
  * the setTimeout(() => playNextAudio(), 50) at the end of onAudioEnded is
    delivered as a separate timer event, as the browser does.
-/

/-- One queued playback item: object URL, transcript text and the isBlob
ownership mark set by handleTtsMessage. -/
structure PlaybackItem where
  url : ℕ
  text : String
  isBlob : Bool
deriving DecidableEq, Repr

/-- Playback controller state: the FIFO queue, the isPlaying flag, the
currentAudio slot, the list of revoked URLs, the drain-signal count, the
log count, the live2dControls presence flag and the fresh-URL counter. -/
structure PlaybackState where
  audioQueue : List PlaybackItem
  isPlaying : Bool
  currentAudio : Option PlaybackItem
  revoked : List ℕ
  drains : ℕ
  logs : ℕ
  live2dPresent : Bool
  nextUrl : ℕ
deriving DecidableEq, Repr

/-- Initial playback state. -/
def pbInit (live2d : Bool) : PlaybackState :=
  { audioQueue := [], isPlaying := false, currentAudio := none, revoked := []
    drains := 0, logs := 0, live2dPresent := live2d, nextUrl := 0 }

/-- Inbound synthesis-channel message after JSON.parse: the discriminant
field and the two payload fields, each possibly absent. -/
structure TtsMsg where
  type : String
  text : Option String
  audio_base64 : Option String
deriving DecidableEq, Repr

/-- Raw synthesis-channel event: the literal pong keepalive or a parsed
message. -/
inductive TtsEvent where
  | pong
  | msg (m : TtsMsg)
deriving DecidableEq, Repr

/-- Base64 alphabet membership, as atob accepts. -/
def base64Char (c : Char) : Bool :=
  c.isAlphanum || c = '+' || c = '/' || c = '='

/-- Validity check of atob: a string of length 1 mod 4, or containing a
character outside the base64 alphabet, throws InvalidCharacterError. -/
def atobOk (b : String) : Bool :=
  decide (b.length % 4 ≠ 1) && b.toList.all base64Char

/-- playNextAudio: returns if the queue is empty or something is already
playing; otherwise marks the head item current and playing.  The avatar
speak call and the ai-audio-play dispatch are external effects carrying no
controller state. -/
def playNextAudio (s : PlaybackState) : PlaybackState :=
  if s.audioQueue.isEmpty || s.isPlaying then s
  else { s with currentAudio := s.audioQueue.head?, isPlaying := true }

/-- onAudioEnded: logs, revokes the head's URL when it is a blob (with a
second log), removes the head, clears the playing flag and the current
slot, signals the avatar stop / drain when no further audio was queued and
live2dControls is present.  The deferred playNextAudio call is delivered as
the separate timer event. -/
def onAudioEnded (s : PlaybackState) : PlaybackState :=
  let s0 := { s with logs := s.logs + 1 }
  let s1 :=
    match s.audioQueue.head? with
    | some it =>
      if it.isBlob then
        { s0 with revoked := s0.revoked ++ [it.url], logs := s0.logs + 1 }
      else s0
    | none => s0
  let hasNextAudio := decide (1 < s.audioQueue.length)
  let s2 := { s1 with audioQueue := s1.audioQueue.tail, isPlaying := false,
                      currentAudio := none }
  if !hasNextAudio && s.live2dPresent then { s2 with drains := s2.drains + 1 }
  else s2

/-- onAudioError: logs, clears the playing flag, removes the head item
(without revoking anything), clears the current slot and immediately calls
playNextAudio. -/
def onAudioError (s : PlaybackState) : PlaybackState :=
  playNextAudio
    { s with logs := s.logs + 1, isPlaying := false,
             audioQueue := s.audioQueue.tail, currentAudio := none }

/-- Try-block body of handleTtsMessage.  An Except.error carries the state
as mutated up to the throw point: reading text.substring of a missing text
throws before any log; base64ToBlob of a missing audio_base64 calls atob on
the string undefined, which throws after the received-audio log. -/
def handleTtsTry (s : PlaybackState) (m : TtsMsg) : Except PlaybackState PlaybackState :=
  if m.type ≠ "audio" then Except.ok s
  else
    match m.text with
    | none => Except.error s
    | some t =>
      let s1 := { s with logs := s.logs + 1 }
      match m.audio_base64 with
      | none => Except.error s1
      | some b =>
        if atobOk b then
          let item : PlaybackItem := { url := s1.nextUrl, text := t, isBlob := true }
          let s2 := { s1 with audioQueue := s1.audioQueue ++ [item],
                              nextUrl := s1.nextUrl + 1 }
          if s2.isPlaying then Except.ok s2 else Except.ok (playNextAudio s2)
        else Except.error s1

/-- handleTtsMessage: ignores the pong keepalive, otherwise runs the try
body; the catch clause logs the parse/decode failure and swallows the
exception. -/
def handleTtsMessage (s : PlaybackState) (ev : TtsEvent) : PlaybackState :=
  match ev with
  | TtsEvent.pong => s
  | TtsEvent.msg m =>
    match handleTtsTry s m with
    | Except.ok s1 => s1
    | Except.error s1 => { s1 with logs := s1.logs + 1 }

/-- Events driving the playback controller: an inbound synthesis message,
the audio element's ended and error callbacks, and the deferred
playNextAudio timer scheduled by onAudioEnded. -/
inductive PbEv where
  | tts (ev : TtsEvent)
  | ended
  | error
  | timer
deriving DecidableEq, Repr

/-- One playback-controller transition per delivered event. -/
def pbStep (s : PlaybackState) (e : PbEv) : PlaybackState :=
  match e with
  | PbEv.tts ev => handleTtsMessage s ev
  | PbEv.ended => onAudioEnded s
  | PbEv.error => onAudioError s
  | PbEv.timer => playNextAudio s

/-- Runs the playback controller from the initial state. -/
def pbRun (live2d : Bool) (es : List PbEv) : PlaybackState :=
  es.foldl pbStep (pbInit live2d)

/-! ### Playback invariants and claims -/

/-- Reachability invariant of the playback controller: nothing occupies the
current slot unless playing, and while playing the current item is the head
of a non-empty queue. -/
def PbInv (s : PlaybackState) : Prop :=
  (s.isPlaying = false → s.currentAudio = none) ∧
  (s.isPlaying = true → s.audioQueue ≠ [] ∧ s.currentAudio = s.audioQueue.head?)

theorem pbInv_pbInit (live2d : Bool) : PbInv (pbInit live2d) := by
  constructor
  · intro _; rfl
  · intro h; simp [pbInit] at h

theorem pbInv_playNextAudio (s : PlaybackState) (h : PbInv s) :
    PbInv (playNextAudio s) := by
  unfold playNextAudio
  by_cases hg : s.audioQueue.isEmpty || s.isPlaying
  · simpa [hg] using h
  · simp only [Bool.or_eq_true, not_or, Bool.not_eq_true] at hg
    have hne : s.audioQueue ≠ [] := by
      intro habs
      rw [habs] at hg
      simp [List.isEmpty] at hg
    constructor
    · intro habs
      simp [hg.1, hg.2] at habs
    · intro _
      simp [hg.1, hg.2, hne]

theorem pbInv_handleTtsMessage (s : PlaybackState) (ev : TtsEvent) (h : PbInv s) :
    PbInv (handleTtsMessage s ev) := by
  cases ev with
  | pong => exact h
  | msg m =>
    unfold handleTtsMessage handleTtsTry
    by_cases ht : m.type ≠ "audio"
    · simpa [ht] using h
    · cases htext : m.text with
      | none => simpa [ht, htext] using ⟨h.1, h.2⟩
      | some t =>
        cases hb : m.audio_base64 with
        | none => simpa [ht, htext, hb] using ⟨h.1, h.2⟩
        | some b =>
          by_cases hok : atobOk b
          · by_cases hp : s.isPlaying
            · obtain ⟨hne, hcur⟩ := h.2 hp
              simp only [ht, htext, hb, hok, if_true, if_neg, ite_not, hp]
              simp [ht, htext, hb, hok, hp]
              constructor
              · intro habs; simp at habs
              · intro _
                refine ⟨by simp, ?_⟩
                rw [head?_append_left _ _ hne]
                exact hcur
            · have hinter : PbInv
                  { s with
                    audioQueue := s.audioQueue ++
                      [{ url := s.nextUrl, text := t, isBlob := true }],
                    logs := s.logs + 1, nextUrl := s.nextUrl + 1 } := by
                constructor
                · intro _
                  exact h.1 (by simpa using hp)
                · intro habs
                  exact absurd (by simpa using habs) hp
              have := pbInv_playNextAudio _ hinter
              simpa [ht, htext, hb, hok, hp] using this
          · simpa [ht, htext, hb, hok] using ⟨h.1, h.2⟩

theorem pbInv_onAudioEnded (s : PlaybackState) : PbInv (onAudioEnded s) := by
  unfold onAudioEnded
  rcases hh : s.audioQueue.head? with _ | it
  · simp only [hh]
    split <;> exact ⟨fun _ => rfl, fun habs => by simp_all⟩
  · simp only [hh]
    split
    · split <;> exact ⟨fun _ => rfl, fun habs => by simp_all⟩
    · split <;> exact ⟨fun _ => rfl, fun habs => by simp_all⟩

theorem pbInv_onAudioError (s : PlaybackState) : PbInv (onAudioError s) := by
  unfold onAudioError
  apply pbInv_playNextAudio
  exact ⟨fun _ => rfl, fun habs => by simp_all⟩

theorem pbInv_pbStep (s : PlaybackState) (e : PbEv) (h : PbInv s) :
    PbInv (pbStep s e) := by
  cases e with
  | tts ev => exact pbInv_handleTtsMessage s ev h
  | ended => exact pbInv_onAudioEnded s
  | error => exact pbInv_onAudioError s
  | timer => exact pbInv_playNextAudio s h

theorem pbInv_foldl (es : List PbEv) :
    ∀ s : PlaybackState, PbInv s → PbInv (es.foldl pbStep s) := by
  induction es with
  | nil => intro s h; exact h
  | cons e es ih => intro s h; exact ih _ (pbInv_pbStep s e h)

theorem pbInv_pbRun (live2d : Bool) (es : List PbEv) : PbInv (pbRun live2d es) :=
  pbInv_foldl es (pbInit live2d) (pbInv_pbInit live2d)

/-- While something is playing, an inbound synthesis message never touches
the playing flag or the current slot and at most appends to the queue's
tail. -/
theorem handleTtsMessage_playing (s : PlaybackState) (ev : TtsEvent)
    (hp : s.isPlaying = true) :
    (handleTtsMessage s ev).isPlaying = true ∧
    (handleTtsMessage s ev).currentAudio = s.currentAudio ∧
    ∃ t, (handleTtsMessage s ev).audioQueue = s.audioQueue ++ t := by
  cases ev with
  | pong => exact ⟨hp, rfl, [], by simp [handleTtsMessage]⟩
  | msg m =>
    unfold handleTtsMessage handleTtsTry
    by_cases ht : m.type ≠ "audio"
    · exact ⟨by simp [ht, hp], by simp [ht], [], by simp [ht]⟩
    · cases htext : m.text with
      | none => exact ⟨by simp [ht, htext, hp], by simp [ht, htext], [], by simp [ht, htext]⟩
      | some t =>
        cases hb : m.audio_base64 with
        | none =>
          exact ⟨by simp [ht, htext, hb, hp], by simp [ht, htext, hb], [],
            by simp [ht, htext, hb]⟩
        | some b =>
          by_cases hok : atobOk b
          · refine ⟨by simp [ht, htext, hb, hok, hp],
              by simp [ht, htext, hb, hok, hp],
              [{ url := s.nextUrl, text := t, isBlob := true }],
              by simp [ht, htext, hb, hok, hp]⟩
          · exact ⟨by simp [ht, htext, hb, hok, hp], by simp [ht, htext, hb, hok], [],
              by simp [ht, htext, hb, hok]⟩

/-- Claim C9: for every event sequence, at most one item is playing — the
current slot is occupied only while the playing flag is set and then holds
the queue's head — and an inbound message arriving while something plays
never interrupts it: the flag and the current item are unchanged and the
queue is only extended at the tail. -/
theorem at_most_one_playing_and_enqueue_never_interrupts
    (live2d : Bool) (es : List PbEv) :
    ((pbRun live2d es).currentAudio.isSome = true →
      (pbRun live2d es).isPlaying = true ∧
      (pbRun live2d es).currentAudio = (pbRun live2d es).audioQueue.head?) ∧
    ∀ ev : TtsEvent, (pbRun live2d es).isPlaying = true →
      (pbStep (pbRun live2d es) (PbEv.tts ev)).isPlaying = true ∧
      (pbStep (pbRun live2d es) (PbEv.tts ev)).currentAudio =
        (pbRun live2d es).currentAudio ∧
      ∃ t, (pbStep (pbRun live2d es) (PbEv.tts ev)).audioQueue =
        (pbRun live2d es).audioQueue ++ t := by
  have h := pbInv_pbRun live2d es
  constructor
  · intro hsome
    cases hp : (pbRun live2d es).isPlaying with
    | false =>
      rw [h.1 hp] at hsome
      simp at hsome
    | true => exact ⟨rfl, (h.2 hp).2⟩
  · intro ev hp
    exact handleTtsMessage_playing (pbRun live2d es) ev hp

/-- Event list for the claim C9 witness: one well-formed audio message,
which starts playback. -/
def c9Events : List PbEv :=
  [PbEv.tts (TtsEvent.msg { type := "audio", text := some "hi",
                            audio_base64 := some "QUJD" })]

/-- Second inbound message for the claim C9 witness. -/
def c9SecondMsg : TtsEvent :=
  TtsEvent.msg { type := "audio", text := some "more", audio_base64 := some "RUZH" }

/-- Witness for claim C9: after one enqueued message the controller is
playing, and a second message keeps it playing, keeps the current item and
only appends at the tail. -/
theorem at_most_one_playing_and_enqueue_never_interrupts_witness :
    ((pbRun true c9Events).isPlaying = true ∧
      (pbRun true c9Events).currentAudio = (pbRun true c9Events).audioQueue.head?) ∧
    ((pbStep (pbRun true c9Events) (PbEv.tts c9SecondMsg)).isPlaying = true ∧
      (pbStep (pbRun true c9Events) (PbEv.tts c9SecondMsg)).currentAudio =
        (pbRun true c9Events).currentAudio ∧
      ∃ t, (pbStep (pbRun true c9Events) (PbEv.tts c9SecondMsg)).audioQueue =
        (pbRun true c9Events).audioQueue ++ t) := by
  have h := at_most_one_playing_and_enqueue_never_interrupts true c9Events
  exact ⟨h.1 (by decide), h.2 c9SecondMsg (by decide)⟩

/-- Claim C8: an inbound synthesis message of type audio that lacks the
audio_base64 field is dropped: the playback queue, the playing flag and the
current slot are unchanged, an error is logged, and — handleTtsMessage
being a total function whose catch clause absorbs the modelled exception —
no exception propagates. -/
theorem malformed_audio_message_dropped (s : PlaybackState) (m : TtsMsg)
    (htype : m.type = "audio") (hmissing : m.audio_base64 = none) :
    (handleTtsMessage s (TtsEvent.msg m)).audioQueue = s.audioQueue ∧
    (handleTtsMessage s (TtsEvent.msg m)).isPlaying = s.isPlaying ∧
    (handleTtsMessage s (TtsEvent.msg m)).currentAudio = s.currentAudio ∧
    s.logs < (handleTtsMessage s (TtsEvent.msg m)).logs := by
  cases htext : m.text with
  | none =>
    refine ⟨?_, ?_, ?_, ?_⟩ <;>
      simp [handleTtsMessage, handleTtsTry, htype, hmissing, htext]
  | some t =>
    refine ⟨?_, ?_, ?_, ?_⟩ <;>
      simp [handleTtsMessage, handleTtsTry, htype, hmissing, htext]
    omega

/-- Witness for claim C8 at the initial state and a concrete audio message
with a missing audio_base64 field. -/
theorem malformed_audio_message_dropped_witness :
    (handleTtsMessage (pbInit true)
        (TtsEvent.msg { type := "audio", text := some "x", audio_base64 := none })).audioQueue =
      (pbInit true).audioQueue ∧
    (handleTtsMessage (pbInit true)
        (TtsEvent.msg { type := "audio", text := some "x", audio_base64 := none })).isPlaying =
      (pbInit true).isPlaying ∧
    (handleTtsMessage (pbInit true)
        (TtsEvent.msg { type := "audio", text := some "x", audio_base64 := none })).currentAudio =
      (pbInit true).currentAudio ∧
    (pbInit true).logs <
      (handleTtsMessage (pbInit true)
        (TtsEvent.msg { type := "audio", text := some "x", audio_base64 := none })).logs :=
  malformed_audio_message_dropped (pbInit true)
    { type := "audio", text := some "x", audio_base64 := none } rfl rfl

/-- Playback state for claim C3: two blob-owned items queued, the first one
playing. -/
def c3State : PlaybackState :=
  { audioQueue := [⟨0, "a", true⟩, ⟨1, "b", true⟩], isPlaying := true,
    currentAudio := some ⟨0, "a", true⟩, revoked := [], drains := 0, logs := 0,
    live2dPresent := true, nextUrl := 2 }

/-- Claim C3, evaluation at the failing input: the head item owns its blob,
normal completion (onAudioEnded) revokes its URL, but the error path
(onAudioError) removes the item without revoking anything — the owned
resource is released zero times, not exactly once — while it does advance
to the next item and signals no drain. -/
theorem playback_error_skips_blob_release :
    c3State.audioQueue.head? = some ⟨0, "a", true⟩ ∧
    (onAudioEnded c3State).revoked = [0] ∧
    (onAudioError c3State).revoked = [] ∧
    (onAudioError c3State).audioQueue = [⟨1, "b", true⟩] ∧
    (onAudioError c3State).isPlaying = true ∧
    (onAudioError c3State).currentAudio = some ⟨1, "b", true⟩ ∧
    (onAudioError c3State).drains = 0 := by
  decide

end Voxelink
